import Mathlib

/-!
Verification development for the timezone-converter repository.

The repository is a React application whose only computational core is the
zone-conversion logic in src/TimeZone.tsx (helped by Luxon) and the 24-hour
grid in src/TimezoneTable.tsx.  This file gives a shallow embedding of that
logic and settles the frozen claims about it.

Modelling conventions, fixed once here:

* An absolute instant is the integer number of minutes since the Unix epoch
  (UTC).  Every computation in the repository is minute-granular (inputs
  come from a datetime-local field, display is HH:mm), so minutes lose
  nothing relative to the millisecond representation Luxon uses.

* A zone is modelled by its fixed UTC offset in minutes (the Luxon
  `zone` of a DateTime).  Offsets of real zones depend on the instant via
  DST rules; none of the claims crosses a DST transition, and the worked
  examples (UTC, Asia/Tokyo, America/Los_Angeles in January) all have a
  constant offset at the instants involved, so a fixed offset per zone is
  faithful for everything proved here.  A zone database is a function from
  zone identifiers to offsets.

* Luxon `a.diff(b, "days").days` for two DateTime values in fixed-offset
  zones reduces to the exact rational (a.instant - b.instant) / one-day:
  Luxon first counts calendar days with `dayDiff`, then corrects the count
  downward while `earlier.plus(\x7bdays: n\x7d)` overshoots the later
  instant, and finally adds the remainder divided by the length of the
  day step; with fixed offsets `plus(\x7bdays: 1\x7d)` is exactly 1440
  minutes, so every branch of that algorithm returns
  n + (later - (earlier + 1440 n)) / 1440 = (later - earlier) / 1440,
  negated when the receiver is the earlier one.  `diffDays` below is that
  reduction.

* JavaScript `Math.trunc` on an exact rational is floor for nonnegative
  arguments and ceiling for negative ones; `jsTrunc` below.
-/

/-- IANA zone identifier, e.g. "Europe/Stockholm"; plain string. -/
abbrev ZoneId := String

/-- Luxon DateTime restricted to what the repository uses: an absolute
instant (minutes since the Unix epoch, UTC) plus the UTC offset in minutes
of the zone the value is viewed in. -/
structure DateTime where
  instant : Int
  offset : Int
deriving DecidableEq, Repr

/-- Luxon `dt.setZone(z, \x7b keepLocalTime: false \x7d)`: same instant,
viewed at the offset of the new zone. -/
def setZone (dt : DateTime) (off : Int) : DateTime :=
  ⟨dt.instant, off⟩

/-- Wall-clock minutes since the local epoch: instant shifted by the zone
offset.  Local calendar fields (day, hour, minute) are read off this. -/
def localMinutes (dt : DateTime) : Int :=
  dt.instant + dt.offset

/-- Local calendar day number (days since 1970-01-01 in the local zone);
floor division because days extend before the epoch. -/
def localDay (dt : DateTime) : Int :=
  (localMinutes dt).fdiv 1440

/-- Local hour of day, always in [0, 24). -/
def localHourOf (dt : DateTime) : Int :=
  (localMinutes dt % 1440) / 60

/-- Local minute within the hour, always in [0, 60). -/
def localMinuteOf (dt : DateTime) : Int :=
  (localMinutes dt % 1440) % 60

/-- Luxon `dt.startOf("day")`: the instant of local midnight of the local
calendar day containing `dt`, still viewed in the same zone. -/
def startOfDay (dt : DateTime) : DateTime :=
  ⟨1440 * localDay dt - dt.offset, dt.offset⟩

/-- Luxon `a.diff(b, "days").days` for fixed-offset zones: the exact
difference of the instants, in units of one day (see the file header for
why the calendar-aware Luxon algorithm collapses to this here). -/
def diffDays (a b : DateTime) : ℚ :=
  ((a.instant - b.instant : Int) : ℚ) / 1440

/-- JavaScript `Math.trunc`: drop the fractional part, rounding toward
zero. -/
def jsTrunc (q : ℚ) : Int :=
  if 0 ≤ q then ⌊q⌋ else ⌈q⌉

/-- One entry of the `conversions` array built in TimeZone.tsx:
`\x7b zone: z, dt: inZone, dayDelta: Math.trunc(dayDelta) \x7d`. -/
structure Conversion where
  zone : ZoneId
  dt : DateTime
  dayDelta : Int
deriving DecidableEq, Repr

instance : Inhabited Conversion :=
  ⟨⟨"", ⟨0, 0⟩, 0⟩⟩

/-- The `conversions` computation of TimeZone.tsx (and of the earlier
revision of the same file), body of the useMemo:

    zones.map((z) => \x7b
      const inZone = srcWall.setZone(z, \x7b keepLocalTime: false \x7d);
      const dayDelta = inZone.startOf("day").diff(srcWall.startOf("day"), "days").days;
      return \x7b zone: z, dt: inZone, dayDelta: Math.trunc(dayDelta) \x7d;
    \x7d);

`off` is the frozen zone database (identifier to offset minutes), `srcWall`
the source DateTime (nowUTC in TimeZone.tsx, srcWall in the earlier
revision). -/
def conversions (off : ZoneId → Int) (srcWall : DateTime) (zones : List ZoneId) :
    List Conversion :=
  zones.map fun z =>
    let inZone := setZone srcWall (off z)
    let dayDelta := diffDays (startOfDay inZone) (startOfDay srcWall)
    ⟨z, inZone, jsTrunc dayDelta⟩

/-- Proleptic Gregorian date (year, month, day) of a day number counted
from 1970-01-01.  Modelled from the platform calendar that Luxon delegates
to when it renders local wall-clock fields; standard civil-from-days
computation, used here only to state worked examples in calendar form. -/
def civilFromDays (day : Int) : Int × Int × Int :=
  let z := day + 719468
  let era := z.fdiv 146097
  let doe := z - era * 146097
  let yoe := (doe - doe / 1460 + doe / 36524 - doe / 146096) / 365
  let y := yoe + era * 400
  let doy := doe - (365 * yoe + yoe / 4 - yoe / 100)
  let mp := (5 * doy + 2) / 153
  let d := doy - (153 * mp + 2) / 5 + 1
  let m := mp + (if mp < 10 then 3 else (-9))
  (y + (if m ≤ 2 then 1 else 0), m, d)

/-- Full local wall-clock reading of a DateTime:
(year, month, day, hour, minute). -/
def localCivil (dt : DateTime) : Int × Int × Int × Int × Int :=
  let c := civilFromDays (localDay dt)
  (c.1, c.2.1, c.2.2, localHourOf dt, localMinuteOf dt)

/-- DEFAULT_ZONES of TimeZone.tsx. -/
def DEFAULT_ZONES : List ZoneId :=
  ["Europe/Stockholm", "America/Phoenix"]

/-- Helper for jsDedup: walk the list keeping the first occurrence of each
element, `seen` being the elements already emitted. -/
def jsDedupAux (seen : List ZoneId) : List ZoneId → List ZoneId
  | [] => []
  | z :: rest =>
    if z ∈ seen then jsDedupAux seen rest
    else z :: jsDedupAux (z :: seen) rest

/-- JavaScript `[...new Set(xs)]`: keep the first occurrence of each
element, in insertion order. -/
def jsDedup (l : List ZoneId) : List ZoneId :=
  jsDedupAux [] l

/-- `addZone` of TimeZone.tsx: `setZones([...new Set([...zones, z])])`. -/
def addZone (z : ZoneId) (zones : List ZoneId) : List ZoneId :=
  jsDedup (zones ++ [z])

/-- `removeZone` of TimeZone.tsx: `setZones(zones.filter((x) => x !== z))`. -/
def removeZone (z : ZoneId) (zones : List ZoneId) : List ZoneId :=
  zones.filter (fun x => x != z)

/-- Helper for jsSplitComma: split a character list at every comma; the
empty input yields one empty group, as JavaScript split does. -/
def splitCommaChars : List Char → List (List Char)
  | [] => [[]]
  | c :: rest =>
    let r := splitCommaChars rest
    if c = ',' then [] :: r
    else (c :: r.headI) :: r.tail

/-- JavaScript `s.split(",")`. -/
def jsSplitComma (s : String) : List String :=
  (splitCommaChars s.toList).map fun cs => String.mk cs

/-- The decode function of the `zones` useQueryState in TimeZone.tsx:

    const parsed = (s?.split(",") || DEFAULT_ZONES).filter((z) => IANAZone.isValidZone(z));
    return parsed.length ? parsed : DEFAULT_ZONES;

`isValidZone` is the zone-database validity check; `none` is a missing
query parameter (URLSearchParams.get returned null). -/
def decodeZones (isValidZone : ZoneId → Bool) (s : Option String) : List ZoneId :=
  let parsed := (match s with
    | some str => jsSplitComma str
    | none => DEFAULT_ZONES).filter isValidZone
  if parsed.length ≠ 0 then parsed else DEFAULT_ZONES

/-- Cached result of the `conversions` useMemo in TimeZone.tsx: the
dependency snapshot together with the value computed when that snapshot
was taken. -/
structure ConvMemo where
  depsZones : List ZoneId
  value : List Conversion
deriving DecidableEq, Repr

/-- One render of the `conversions` useMemo of TimeZone.tsx:

    const conversions = useMemo(() => \x7b ... \x7d, [zones]);

React recomputes the memoised value only when the dependency array
changes; the dependency array is `[zones]` and does not include `nowUTC`,
so a render with unchanged `zones` (the same state reference, hence the
same list value) returns the cached value even when `nowUTC` moved. -/
def conversionsMemo (off : ZoneId → Int) (prev : ConvMemo)
    (zones : List ZoneId) (nowUTC : DateTime) : ConvMemo :=
  if zones = prev.depsZones then prev else ⟨zones, conversions off nowUTC zones⟩

/-- TimezoneTable.tsx: `baseStart = now.setZone(baseZone).startOf("day")`,
as an instant, for a base zone of offset `baseOff` and the instant `now`. -/
def baseStartInstant (baseOff now : Int) : Int :=
  (startOfDay ⟨now, baseOff⟩).instant

/-- TimezoneTable.tsx: `hours[i] = baseStart.plus(\x7b hour: i \x7d)` —
hour is an exact time unit in Luxon, so row `i` is 60 i minutes after the
base-zone midnight. -/
def gridHourInstant (baseOff now : Int) (i : Nat) : Int :=
  baseStartInstant baseOff now + 60 * i

/-- TimezoneTable.tsx: `currentHour = now.setZone(baseZone).hour`. -/
def currentHour (baseOff now : Int) : Int :=
  localHourOf ⟨now, baseOff⟩

/-- TimezoneTable.tsx row flag: `isCurrent = i === currentHour`. -/
def rowIsCurrent (baseOff now : Int) (i : Nat) : Bool :=
  decide ((i : Int) = currentHour baseOff now)

/-- Night flag of the TimezoneTable.tsx revision at lines 84-97, computed
from the row index: `const isNight = i >= 22 || i < 6;`. -/
def rowIsNightIdx (i : Nat) : Bool :=
  decide (22 ≤ i ∨ i < 6)

/-- Night flag of the TimezoneTable.tsx revision at lines 153-175, computed
per cell from the projected local hour:
`const local = hour.setZone(zone); const isNight = local.hour >= 22 || local.hour < 6;`. -/
def cellIsNight (baseOff zoneOff now : Int) (i : Nat) : Bool :=
  let h := localHourOf ⟨gridHourInstant baseOff now i, zoneOff⟩
  decide (22 ≤ h ∨ h < 6)

/-- The rendered rows of TimezoneTable: for each of the 24 hours, the
row-current flag and, per zone, the local hour shown in that cell. -/
def timezoneTableRows (off : ZoneId → Int) (now : Int) (zones : List ZoneId) :
    List (Bool × List Int) :=
  let baseOff := off zones.headI
  (List.range 24).map fun i =>
    (rowIsCurrent baseOff now i,
      zones.map fun z => localHourOf ⟨gridHourInstant baseOff now i, off z⟩)

/-- The day-delta label rendered in TimeZone.tsx line 182 (identical in the
earlier revision, line 219):
`dayDelta === 0 ? "" : dayDelta > 0 ? "  (+1 day)" : "  (−1 day)"`. -/
def dayDeltaLabel (dayDelta : Int) : String :=
  if dayDelta = 0 then "" else if 0 < dayDelta then "  (+1 day)" else "  (−1 day)"

/-- Modelled from the spec: the signed whole-day count between the target
zone local calendar date and the source zone local calendar date, for the
same instant (spec section 3, dayDelta invariant; section 4.1 step 3).
This is what the spec asserts `dayDelta` to equal; it is not computed
anywhere in the source, which is why it is modelled from the spec words. -/
def calendarDayDelta (offTarget offSource t : Int) : Int :=
  localDay ⟨t, offTarget⟩ - localDay ⟨t, offSource⟩

/-- Modelled from the spec: per-cell night classification, local hour in
[22,24) or [0,6) (spec section 4.1, buildDayGrid). -/
def isNightSpec (h : Int) : Bool :=
  decide ((22 ≤ h ∧ h < 24) ∨ (0 ≤ h ∧ h < 6))

/-- Frozen zone-database snapshot for the worked examples: offsets of the
zones named by the claims at the instants of the claims (January 2024,
no DST in force in any of them). -/
def exampleOffsets : ZoneId → Int := fun z =>
  if z = "Asia/Tokyo" then 540
  else if z = "America/Los_Angeles" then (-480)
  else 0

/-- The all-UTC zone database used in small counterexamples. -/
def zeroOffsets : ZoneId → Int := fun _ => 0

/-! Helper lemmas shared by the claim theorems. -/

/-- The start-of-day instant lies in the half-open day window ending at the
instant itself: it is at most the instant and less than one day before it. -/
theorem startOfDay_instant_bounds (dt : DateTime) :
    dt.instant - 1440 < (startOfDay dt).instant ∧ (startOfDay dt).instant ≤ dt.instant := by
  unfold startOfDay localDay localMinutes
  rw [Int.fdiv_eq_ediv _ (by norm_num)]
  constructor <;> (simp only []; omega)

/-- Math.trunc of a rational strictly between -1 and 1 is 0. -/
theorem jsTrunc_eq_zero {q : ℚ} (h1 : -1 < q) (h2 : q < 1) : jsTrunc q = 0 := by
  rcases le_or_lt 0 q with h | h
  · simp only [jsTrunc, if_pos h]
    rw [Int.floor_eq_zero_iff]
    exact Set.mem_Ico.mpr ⟨h, h2⟩
  · simp only [jsTrunc, if_neg (not_le.mpr h)]
    rw [Int.ceil_eq_zero_iff]
    exact Set.mem_Ioc.mpr ⟨h1, le_of_lt h⟩

/-- Truncated day difference of two DateTimes whose instants are less than
one day apart is 0. -/
theorem jsTrunc_diffDays_eq_zero (x y : DateTime) (h1 : -1440 < x.instant - y.instant)
    (h2 : x.instant - y.instant < 1440) : jsTrunc (diffDays x y) = 0 := by
  apply jsTrunc_eq_zero
  · unfold diffDays
    rw [lt_div_iff₀ (by norm_num : (0 : ℚ) < 1440)]
    calc ((-1 : ℚ) * 1440) = ((-1440 : Int) : ℚ) := by norm_num
    _ < _ := by exact_mod_cast h1
  · unfold diffDays
    rw [div_lt_one (by norm_num : (0 : ℚ) < 1440)]
    exact_mod_cast h2

/-- The dayDelta the code computes is 0 for every target offset: the two
start-of-day instants both lie in the day window ending at the shared
instant, so their difference is a proper fraction of a day and Math.trunc
sends it to 0. -/
theorem dayDelta_eq_zero (offTarget : Int) (src : DateTime) :
    jsTrunc (diffDays (startOfDay (setZone src offTarget)) (startOfDay src)) = 0 := by
  obtain ⟨h1, h2⟩ := startOfDay_instant_bounds (setZone src offTarget)
  obtain ⟨h3, h4⟩ := startOfDay_instant_bounds src
  have hi : (setZone src offTarget).instant = src.instant := rfl
  apply jsTrunc_diffDays_eq_zero <;> omega

/-- The local hour of any DateTime is nonnegative. -/
theorem localHourOf_nonneg (dt : DateTime) : 0 ≤ localHourOf dt := by
  unfold localHourOf localMinutes
  omega

/-- The local hour of any DateTime is below 24. -/
theorem localHourOf_lt (dt : DateTime) : localHourOf dt < 24 := by
  unfold localHourOf localMinutes
  omega

/-- Counting the hits of one integer among the casts of `range n`: exactly
one hit when the integer is in range. -/
theorem countP_range_cast_eq_one (n : Nat) (c : Int) (h0 : 0 ≤ c) (hn : c < n) :
    List.countP (fun i : Nat => decide ((i : Int) = c)) (List.range n) = 1 := by
  induction n with
  | zero => omega
  | succ m ih =>
    rw [List.range_succ, List.countP_append]
    by_cases hc : c = (m : Int)
    · have hz : List.countP (fun i : Nat => decide ((i : Int) = c)) (List.range m) = 0 := by
        rw [List.countP_eq_zero]
        intro a ha
        have := List.mem_range.mp ha
        simp only [decide_eq_true_eq]
        omega
      rw [hz]
      simp [hc]
    · have hlt : c < (m : Int) := by
        have : c ≤ (m : Int) := by exact_mod_cast Int.lt_add_one_iff.mp (by exact_mod_cast hn)
        omega
      rw [ih hlt]
      simp [List.countP_cons, Ne.symm hc]

/-- The first element of jsDedupAux on a cons whose head is unseen is that
head. -/
theorem jsDedupAux_cons_not_seen (seen : List ZoneId) (x : ZoneId) (xs : List ZoneId)
    (hx : x ∉ seen) : jsDedupAux seen (x :: xs) = x :: jsDedupAux (x :: seen) xs := by
  simp [jsDedupAux, hx]

/-- Generalised no-op lemma for jsDedupAux: with a duplicate-free list left
to scan, none of it seen yet, and the appended element either in the list
or already seen, the scan reproduces the list. -/
theorem jsDedupAux_append_mem (L : List ZoneId) :
    ∀ seen z, L.Nodup → (∀ x ∈ L, x ∉ seen) → (z ∈ L ∨ z ∈ seen) →
      jsDedupAux seen (L ++ [z]) = L := by
  induction L with
  | nil =>
    intro seen z _ _ hz
    rcases hz with h | h
    · simp at h
    · simp [jsDedupAux, h]
  | cons a t ih =>
    intro seen z hnd hdisj hz
    have ha : a ∉ seen := hdisj a (by simp)
    rw [List.cons_append, jsDedupAux_cons_not_seen seen a (t ++ [z]) ha]
    congr 1
    apply ih
    · exact (List.nodup_cons.mp hnd).2
    · intro x hx
      simp only [List.mem_cons]
      push_neg
      refine ⟨fun hxa => (List.nodup_cons.mp hnd).1 (hxa ▸ hx), hdisj x (List.mem_cons_of_mem a hx)⟩
    · rcases hz with h | h
      · rcases List.mem_cons.mp h with h | h
        · right; simp [h]
        · left; exact h
      · right; exact List.mem_cons_of_mem a h

/-- The branch structure of the zones decoder never returns an empty list:
either the parsed list was nonempty or the nonempty default list is
substituted. -/
theorem decode_branch_ne_nil (parsed : List ZoneId) :
    (if parsed.length ≠ 0 then parsed else DEFAULT_ZONES) ≠ [] := by
  split
  · intro hnil
    simp [hnil] at *
  · decide

/-! The claim theorems. -/

/-- C1: for every valid zone list and every instant, the dayDelta computed
for the anchor zone (the first entry of the zone list) is 0: converting
the instant into the anchor zone itself never reports a day offset. -/
theorem c1_anchor_dayDelta_zero (off : ZoneId → Int) (srcWall : DateTime)
    (z : ZoneId) (zs : List ZoneId) :
    ((conversions off srcWall (z :: zs)).headI).dayDelta = 0 :=
  dayDelta_eq_zero (off z) srcWall

/-- C2 (refuting evaluation): at source instant 2024-01-01T23:30 UTC with
target Asia/Tokyo (UTC+9), the code computes dayDelta 0 — Math.trunc of
the 0.625-day start-of-day instant difference — while the signed
whole-day count between the local calendar dates of the two zones at that
instant (what the claim says dayDelta equals) is 1. -/
theorem c2_dayDelta_not_calendar_delta :
    conversions exampleOffsets ⟨28402530, 0⟩ ["Asia/Tokyo"] =
      [⟨"Asia/Tokyo", ⟨28402530, 540⟩, 0⟩] ∧
    calendarDayDelta 540 0 28402530 = 1 := by
  have hT : exampleOffsets "Asia/Tokyo" = 540 := by decide
  constructor
  · norm_num [conversions, hT, setZone, startOfDay, localDay, localMinutes,
      diffDays, jsTrunc, Int.fdiv_eq_ediv]
  · decide

/-- C3 (refuting evaluation): the useMemo dependency array of
`conversions` in TimeZone.tsx is `[zones]` and omits `nowUTC`, so a
second render with the same zones but a later instant returns the cached
conversion list of the earlier instant, which differs from the fresh
conversion list of the later instant. -/
theorem c3_memo_stale_across_instant_change :
    conversionsMemo zeroOffsets (conversionsMemo zeroOffsets ⟨[], []⟩ ["UTC"] ⟨0, 0⟩)
        ["UTC"] ⟨60, 0⟩ =
      conversionsMemo zeroOffsets ⟨[], []⟩ ["UTC"] ⟨0, 0⟩ ∧
    (conversionsMemo zeroOffsets (conversionsMemo zeroOffsets ⟨[], []⟩ ["UTC"] ⟨0, 0⟩)
        ["UTC"] ⟨60, 0⟩).value ≠ conversions zeroOffsets ⟨60, 0⟩ ["UTC"] := by
  constructor
  · simp [conversionsMemo]
  · simp [conversionsMemo, conversions, setZone]

/-- C4 counterexample: removing the last remaining zone is a plain filter
and yields the empty list — it is neither rejected nor replaced by the
default zone set. -/
theorem c4_counterexample_removeZone_empties :
    removeZone "Europe/Stockholm" ["Europe/Stockholm"] = ([] : List ZoneId) := by
  decide

/-- C4 as amended: the decoded URL parameter never yields an empty zone
list (invalid entries are dropped and the default set is substituted when
nothing remains), and addZone never empties the list; removeZone alone
can produce the empty list when the last zone is removed. -/
theorem c4_decode_and_add_nonempty (isValidZone : ZoneId → Bool) (s : Option String)
    (z : ZoneId) (zones : List ZoneId) :
    decodeZones isValidZone s ≠ [] ∧ addZone z zones ≠ [] := by
  constructor
  · unfold decodeZones
    exact decode_branch_ne_nil _
  · cases zones <;> simp [addZone, jsDedup, jsDedupAux]

/-- C5 counterexample: in the TimezoneTable revision at lines 84-97 the
night flag of a cell is computed from the row index, and at row 23 with a
UTC base zone and a UTC+9 column it disagrees with the classification by
that cell's own projected local hour (08:00, daytime). -/
theorem c5_counterexample_row_night :
    rowIsNightIdx 23 ≠ isNightSpec (localHourOf ⟨gridHourInstant 0 0 23, 540⟩) := by
  decide

/-- C5 as amended: in the TimezoneTable revision at lines 153-175 every
cell's night flag equals the spec classification of that cell's own
projected local hour (hour in [22,24) or [0,6)); the revision at lines
84-97 instead classifies whole rows by row index. -/
theorem c5_cell_night_by_local_hour (baseOff zoneOff now : Int) (i : Nat) :
    cellIsNight baseOff zoneOff now i =
      isNightSpec (localHourOf ⟨gridHourInstant baseOff now i, zoneOff⟩) := by
  have h0 := localHourOf_nonneg ⟨gridHourInstant baseOff now i, zoneOff⟩
  have h24 := localHourOf_lt ⟨gridHourInstant baseOff now i, zoneOff⟩
  unfold cellIsNight isNightSpec
  rw [decide_eq_decide]
  omega

/-- C6: for every instant and non-empty zone list the rendered day grid
has exactly 24 rows regardless of the number of target zones, and exactly
one row carries the is-current flag — the reference zone hour is always
well-defined (an integer in [0,24)), so the zero-rows alternative of the
claim never arises. -/
theorem c6_grid_rows_and_current (off : ZoneId → Int) (now : Int)
    (z : ZoneId) (zs : List ZoneId) :
    (timezoneTableRows off now (z :: zs)).length = 24 ∧
      ((timezoneTableRows off now (z :: zs)).filter (fun row => row.1)).length = 1 := by
  constructor
  · simp [timezoneTableRows]
  · have h0 := localHourOf_nonneg ⟨now, off (z :: zs).headI⟩
    have h24 := localHourOf_lt ⟨now, off (z :: zs).headI⟩
    rw [← List.countP_eq_length_filter, timezoneTableRows, List.countP_map]
    have hpred : ((fun row : Bool × List Int => row.1) ∘
        (fun i => (rowIsCurrent (off (z :: zs).headI) now i,
          (z :: zs).map fun w => localHourOf ⟨gridHourInstant (off (z :: zs).headI) now i, off w⟩)))
        = fun i : Nat => decide ((i : Int) = currentHour (off (z :: zs).headI) now) := by
      funext i
      rfl
    rw [hpred]
    exact countP_range_cast_eq_one 24 _ h0 (by exact_mod_cast h24)

/-- C7 (refuting evaluation): converting 2024-01-01T23:30 UTC to
Asia/Tokyo gives local wall time 2024-01-02T08:30 as the claim says, but
dayDelta 0, not +1; converting 2024-01-01T00:30 UTC to America/Los_Angeles
gives local wall time 2023-12-31T16:30, but dayDelta 0, not -1. -/
theorem c7_rollover_examples_eval :
    (conversions exampleOffsets ⟨28402530, 0⟩ ["Asia/Tokyo"] =
        [⟨"Asia/Tokyo", ⟨28402530, 540⟩, 0⟩] ∧
      localCivil ⟨28402530, 540⟩ = (2024, 1, 2, 8, 30)) ∧
    (conversions exampleOffsets ⟨28401150, 0⟩ ["America/Los_Angeles"] =
        [⟨"America/Los_Angeles", ⟨28401150, -480⟩, 0⟩] ∧
      localCivil ⟨28401150, -480⟩ = (2023, 12, 31, 16, 30)) := by
  have hT : exampleOffsets "Asia/Tokyo" = 540 := by decide
  have hLA : exampleOffsets "America/Los_Angeles" = -480 := by decide
  refine ⟨⟨?_, by decide⟩, ?_, by decide⟩
  · norm_num [conversions, hT, setZone, startOfDay, localDay, localMinutes,
      diffDays, jsTrunc, Int.fdiv_eq_ediv]
  · norm_num [conversions, hLA, setZone, startOfDay, localDay, localMinutes,
      diffDays, jsTrunc, Int.fdiv_eq_ediv]

/-- C8: the conversion is a pure function of its inputs under a frozen
zone database — two databases that agree on the offsets of the listed
zones produce identical conversion lists, so identical calls yield
identical outputs and nothing outside the inputs is consulted. -/
theorem c8_conversions_deterministic (offA offB : ZoneId → Int) (srcWall : DateTime)
    (zones : List ZoneId) (h : ∀ z ∈ zones, offA z = offB z) :
    conversions offA srcWall zones = conversions offB srcWall zones := by
  unfold conversions
  apply List.map_congr_left
  intro z hz
  rw [h z hz]

/-- Witness for C8 at a concrete input: a database sending every zone to
UTC+1 except UTC itself agrees with the all-zero database on the list
containing only UTC, and the two conversion lists coincide. -/
theorem c8_conversions_deterministic_witness :
    conversions (fun z => if z = "UTC" then 0 else 60) ⟨0, 0⟩ ["UTC"] =
      conversions zeroOffsets ⟨0, 0⟩ ["UTC"] :=
  c8_conversions_deterministic (fun z => if z = "UTC" then 0 else 60) zeroOffsets
    ⟨0, 0⟩ ["UTC"] (by intro z hz; simp only [List.mem_singleton] at hz; subst hz; decide)

/-- C9 counterexample: the zone list can reach a state with duplicates
(the URL decoder accepts "UTC,UTC"); on such a list, adding an
already-present zone is not a no-op — the JavaScript Set deduplicates the
whole list. -/
theorem c9_counterexample_duplicates :
    ("UTC" : ZoneId) ∈ (["UTC", "UTC"] : List ZoneId) ∧
      addZone "UTC" ["UTC", "UTC"] ≠ ["UTC", "UTC"] := by
  decide

/-- C9 as amended: on a duplicate-free zone list — the invariant insertion
itself maintains — adding a zone that is already present leaves the list
unchanged. -/
theorem c9_addZone_noop (z : ZoneId) (zones : List ZoneId) (hmem : z ∈ zones)
    (hnd : zones.Nodup) : addZone z zones = zones := by
  unfold addZone jsDedup
  exact jsDedupAux_append_mem zones [] z hnd (by simp) (Or.inl hmem)

/-- Witness for C9 at a concrete input. -/
theorem c9_addZone_noop_witness :
    addZone "UTC" ["UTC", "Asia/Tokyo"] = ["UTC", "Asia/Tokyo"] :=
  c9_addZone_noop "UTC" ["UTC", "Asia/Tokyo"] (by decide) (by decide)

/-- C10: the rendered day-offset indicator saturates at one day — every
strictly positive dayDelta is displayed as "  (+1 day)" and every strictly
negative dayDelta as "  (−1 day)", regardless of magnitude. -/
theorem c10_label_saturates (d : Int) :
    (0 < d → dayDeltaLabel d = "  (+1 day)") ∧
      (d < 0 → dayDeltaLabel d = "  (−1 day)") := by
  constructor
  · intro h
    unfold dayDeltaLabel
    rw [if_neg (by omega), if_pos h]
  · intro h
    unfold dayDeltaLabel
    rw [if_neg (by omega), if_neg (by omega)]

/-- Witness for C10 at the magnitude-2 deltas possible between UTC+14 and
UTC-12 zones: they render exactly like the magnitude-1 deltas. -/
theorem c10_label_saturates_witness :
    dayDeltaLabel 2 = "  (+1 day)" ∧ dayDeltaLabel (-2) = "  (−1 day)" :=
  ⟨(c10_label_saturates 2).1 (by decide), (c10_label_saturates (-2)).2 (by decide)⟩
